import Mathlib

/-!
Verification development for the mac-image-optimizer desktop application.

The definitions below are a shallow embedding of the optimization pipeline
(`apps/desktop/src/main/optimizer/pipeline.ts` and friends): candidate
selection, the SSIM-guarded ladder and smart binary search, the atomic
writer, the job state machine, the summary accounting of the run coordinator,
the watch-service processed index, and the backup bookkeeping.

External effects (encoders, the filesystem, SSIM computation) are
represented by explicit oracles or state records that are threaded through
the functions, so every definition is executable and every theorem can be
checked on concrete inputs.
-/

namespace ImgOpt

/-! ## Shared data model (optimizer/types.ts, shared/types.ts) -/

inductive ImageFormat
  | jpeg
  | png
  | webp
  deriving DecidableEq, Repr

inductive OutputMode
  | subfolder
  | replace
  deriving DecidableEq, Repr

inductive SmartTarget
  | visuallyLossless
  | high
  | balanced
  | small
  | custom
  deriving DecidableEq, Repr

inductive OptimizationSpeed
  | fast
  | balanced
  | thorough
  deriving DecidableEq, Repr

/-- The slice of `EffectiveSettings` (optimizer/types.ts) that the
pipeline decisions under verification depend on.  Quality values and the
custom guardrail are rationals because the source compares them against
SSIM scores in [0, 1]. -/
structure EffectiveSettings where
  allowLargerOutput : Bool
  qualityGuardrailSsim : Bool
  aggressivePng : Bool
  smartCompressionMode : Bool
  smartTarget : SmartTarget
  qualityGuardrail : ℚ
  optimizationSpeed : OptimizationSpeed
  keepMetadata : Bool
  outputMode : OutputMode
  deriving DecidableEq, Repr

/-- Models `CandidateResult` from optimizer/types.ts: an encoded candidate with
its byte size, quality label and optional SSIM score.  Buffers are byte
lists. -/
structure CandidateResult where
  buffer : List Nat
  bytes : Nat
  qualityLabel : String
  format : ImageFormat
  ssim : Option ℚ := none
  deriving DecidableEq, Repr

/-! ## Candidate helpers (optimizer/candidates.ts) -/

/-- Models `SSIM_THRESHOLD_NORMAL = 0.995` (optimizer/exportPreset.ts). -/
def SSIM_THRESHOLD_NORMAL : ℚ := mkRat 995 1000

/-- Models `SSIM_THRESHOLD_AGGRESSIVE = 0.99` (optimizer/exportPreset.ts). -/
def SSIM_THRESHOLD_AGGRESSIVE : ℚ := mkRat 99 100

/-- Models `getSsimThreshold` (optimizer/candidates.ts): 0 bypasses the guard,
otherwise the aggressive or normal constant. -/
def getSsimThreshold (settings : EffectiveSettings) : ℚ :=
  if !settings.qualityGuardrailSsim then 0
  else if settings.aggressivePng then SSIM_THRESHOLD_AGGRESSIVE
  else SSIM_THRESHOLD_NORMAL

/-- Models `shouldSkipIfLarger` (optimizer/candidates.ts). -/
def shouldSkipIfLarger (originalBytes candidateBytes : Nat)
    (settings : EffectiveSettings) : Bool :=
  !settings.allowLargerOutput && decide (candidateBytes ≥ originalBytes)

/-! ## Candidate evaluation and selection (optimizer/pipeline.ts) -/

/-- The per-candidate description used by `evaluateCandidate`
(optimizer/pipeline.ts, `CandidateFile`): format, quality label and
whether an SSIM check is required. -/
structure CandidateFile where
  format : ImageFormat
  label : String
  needsSsim : Bool
  deriving DecidableEq, Repr

/-- Models `evaluateCandidate` (optimizer/pipeline.ts).  The candidate bytes have
already been read into `result`; `similarity` is the value `computeSsim`
returns for this candidate.  Lossless candidates skip the check; lossy
candidates are rejected when `similarity < ssimThreshold`. -/
def evaluateCandidate (candidate : CandidateFile) (result : CandidateResult)
    (similarity : ℚ) (ssimThreshold : ℚ) : Option CandidateResult :=
  if !candidate.needsSsim then some result
  else if similarity < ssimThreshold then none
  else some { result with ssim := some similarity }

/-- The comparator of the sort inside `pickBest`: `(a, b) => a.bytes - b.bytes`. -/
def byBytesLe (a b : CandidateResult) : Prop :=
  a.bytes ≤ b.bytes

instance : DecidableRel byBytesLe := fun a b =>
  inferInstanceAs (Decidable (a.bytes ≤ b.bytes))

instance : IsTotal CandidateResult byBytesLe :=
  ⟨fun a b => Nat.le_total a.bytes b.bytes⟩

instance : IsTrans CandidateResult byBytesLe :=
  ⟨fun _ _ _ => Nat.le_trans⟩

/-- Models `pickBest` (optimizer/pipeline.ts): null on an empty list, otherwise
the head of `[...candidates].sort((a, b) => a.bytes - b.bytes)` (a stable
sort ascending by byte size). -/
def pickBest (candidates : List CandidateResult) : Option CandidateResult :=
  if candidates.isEmpty then none
  else (candidates.insertionSort byBytesLe).head?

inductive ActionStatus
  | success
  | skipped
  | failed
  deriving DecidableEq, Repr

/-- Models `ActionDecision` (optimizer/types.ts): what one action reports for a
file. -/
structure ActionDecision where
  status : ActionStatus
  reason : Option String := none
  outputPath : Option String := none
  originalBytes : Nat
  outputBytes : Nat
  bytesSaved : Nat
  deriving DecidableEq, Repr

/-- Models `skipDecision` (optimizer/pipeline.ts). -/
def skipDecision (originalBytes : Nat) (reason : String) : ActionDecision :=
  { status := .skipped
    reason := some reason
    originalBytes := originalBytes
    outputBytes := originalBytes
    bytesSaved := 0 }

/-- Models `Math.max(0, originalBytes - outputBytes)` over JS numbers. -/
def jsBytesSaved (originalBytes outputBytes : Nat) : Nat :=
  (max 0 ((originalBytes : Int) - (outputBytes : Int))).toNat

/-- The decision tail of `runOptimizeAction` (optimizer/pipeline.ts),
starting from the list of accepted candidates: pick the best candidate,
skip when none exists, run the export preset (`applyBytes` gives the byte
size of the preset output for a chosen candidate), skip when the result
is not smaller, otherwise report success. -/
def runOptimizeDecision (originalBytes : Nat) (candidates : List CandidateResult)
    (applyBytes : CandidateResult → Nat) (finalNamedPath : String)
    (settings : EffectiveSettings) : ActionDecision :=
  match pickBest candidates with
  | none => skipDecision originalBytes "No candidate met quality threshold"
  | some best =>
    let appliedBytes := applyBytes best
    if shouldSkipIfLarger originalBytes appliedBytes settings then
      skipDecision originalBytes "Skipped (larger)"
    else
      { status := .success
        outputPath := some finalNamedPath
        originalBytes := originalBytes
        outputBytes := appliedBytes
        bytesSaved := jsBytesSaved originalBytes appliedBytes }

/-! ## Lemmas about candidate selection -/

lemma pickBest_spec (candidates : List CandidateResult) (best : CandidateResult)
    (h : pickBest candidates = some best) :
    best ∈ candidates ∧ ∀ c ∈ candidates, best.bytes ≤ c.bytes := by
  unfold pickBest at h
  by_cases he : candidates.isEmpty = true
  · simp [he] at h
  · rw [if_neg he] at h
    have hperm : (candidates.insertionSort byBytesLe).Perm candidates :=
      List.perm_insertionSort byBytesLe candidates
    have hsorted := List.sorted_insertionSort byBytesLe candidates
    rcases hs : candidates.insertionSort byBytesLe with _ | ⟨hd, tl⟩
    · rw [hs] at h; simp at h
    · rw [hs] at h
      simp only [List.head?_cons, Option.some.injEq] at h
      subst h
      rw [hs] at hperm hsorted
      constructor
      · exact hperm.mem_iff.mp (List.mem_cons_self _ _)
      · intro c hc
        have hcs : c ∈ hd :: tl := hperm.mem_iff.mpr hc
        rcases List.mem_cons.mp hcs with hceq | hctl
        · subst hceq; exact le_refl _
        · exact (List.pairwise_cons.mp hsorted).1 c hctl

lemma pickBest_isSome (candidates : List CandidateResult)
    (h : candidates ≠ []) : ∃ best, pickBest candidates = some best := by
  unfold pickBest
  have he : candidates.isEmpty = false := by
    simpa [List.isEmpty_iff] using h
  rw [if_neg (by simp [he])]
  have hne : candidates.insertionSort byBytesLe ≠ [] := by
    intro hnil
    have hp := List.perm_insertionSort byBytesLe candidates
    rw [hnil] at hp
    exact h hp.symm.eq_nil
  rcases hs : candidates.insertionSort byBytesLe with _ | ⟨hd, tl⟩
  · exact absurd hs hne
  · exact ⟨hd, by simp [hs]⟩

/-! ## C1 -/

/-- C1: In ladder mode, for every non-empty set of accepted candidates,
`pickBest` selects a candidate of minimal byte size among them; when the
accepted set is empty no candidate is selected and `runOptimizeAction`
skips with the no-candidate-met-threshold reason. -/
theorem C1_pickBest_minimal_or_skip
    (originalBytes : Nat) (candidates : List CandidateResult)
    (applyBytes : CandidateResult → Nat) (finalNamedPath : String)
    (settings : EffectiveSettings) :
    (∀ best, pickBest candidates = some best →
      best ∈ candidates ∧ ∀ c ∈ candidates, best.bytes ≤ c.bytes)
    ∧ (candidates ≠ [] → ∃ best, pickBest candidates = some best)
    ∧ (candidates = [] →
        pickBest candidates = none ∧
        runOptimizeDecision originalBytes candidates applyBytes finalNamedPath settings
          = skipDecision originalBytes "No candidate met quality threshold" ∧
        (runOptimizeDecision originalBytes candidates applyBytes
            finalNamedPath settings).status = .skipped) := by
  refine ⟨fun best h => pickBest_spec candidates best h,
    fun h => pickBest_isSome candidates h, fun h => ?_⟩
  subst h
  refine ⟨rfl, rfl, rfl⟩

/-- Sample settings used to evaluate theorems on concrete inputs. -/
def sampleSettings : EffectiveSettings :=
  { allowLargerOutput := false
    qualityGuardrailSsim := true
    aggressivePng := false
    smartCompressionMode := false
    smartTarget := .high
    qualityGuardrail := 90
    optimizationSpeed := .balanced
    keepMetadata := false
    outputMode := .subfolder }

/-- Sample candidates used to evaluate theorems on concrete inputs. -/
def sampleCandidates : List CandidateResult :=
  [ { buffer := [1, 2, 3], bytes := 3, qualityLabel := "q88", format := .jpeg },
    { buffer := [1, 2], bytes := 2, qualityLabel := "q84", format := .jpeg } ]

theorem C1_witness :
    (∃ best, pickBest sampleCandidates = some best) ∧
    (pickBest [] = none ∧
     runOptimizeDecision 10 [] (fun c => c.bytes) "out.jpg" sampleSettings
       = skipDecision 10 "No candidate met quality threshold" ∧
     (runOptimizeDecision 10 [] (fun c => c.bytes) "out.jpg"
        sampleSettings).status = .skipped) :=
  ⟨(C1_pickBest_minimal_or_skip 10 sampleCandidates (fun c => c.bytes) "out.jpg"
      sampleSettings).2.1 (by decide),
   (C1_pickBest_minimal_or_skip 10 [] (fun c => c.bytes) "out.jpg"
      sampleSettings).2.2 rfl⟩

/-! ## C3 -/

lemma runOptimizeDecision_cases (ob : Nat) (cs : List CandidateResult)
    (f : CandidateResult → Nat) (p : String) (s : EffectiveSettings) :
    runOptimizeDecision ob cs f p s
        = skipDecision ob "No candidate met quality threshold"
    ∨ runOptimizeDecision ob cs f p s = skipDecision ob "Skipped (larger)"
    ∨ ∃ best, pickBest cs = some best
        ∧ shouldSkipIfLarger ob (f best) s = false
        ∧ runOptimizeDecision ob cs f p s
            = { status := .success, outputPath := some p, originalBytes := ob,
                outputBytes := f best,
                bytesSaved := jsBytesSaved ob (f best) } := by
  unfold runOptimizeDecision
  rcases hp : pickBest cs with _ | best
  · left; rfl
  · by_cases hs : shouldSkipIfLarger ob (f best) s = true
    · right; left; simp [hs]
    · right; right
      exact ⟨best, rfl, Bool.eq_false_iff.mpr hs, by simp [hs]⟩

/-- C3: when an optimize action reports success with `allowLargerOutput`
off, the output byte count is strictly smaller than the original, and the
reported `bytesSaved` equals `max(0, originalBytes - outputBytes)`;
a best candidate whose preset output is not smaller than the original is
skipped with reason "Skipped (larger)". -/
theorem C3_success_output_smaller
    (originalBytes : Nat) (candidates : List CandidateResult)
    (applyBytes : CandidateResult → Nat) (finalNamedPath : String)
    (settings : EffectiveSettings) :
    ((runOptimizeDecision originalBytes candidates applyBytes finalNamedPath
        settings).status = .success →
      (settings.allowLargerOutput = false →
        (runOptimizeDecision originalBytes candidates applyBytes finalNamedPath
          settings).outputBytes < originalBytes)
      ∧ ((runOptimizeDecision originalBytes candidates applyBytes finalNamedPath
            settings).bytesSaved : Int)
          = max 0 ((originalBytes : Int)
              - ((runOptimizeDecision originalBytes candidates applyBytes
                  finalNamedPath settings).outputBytes : Int))
      ∧ (runOptimizeDecision originalBytes candidates applyBytes finalNamedPath
          settings).originalBytes = originalBytes)
    ∧ (∀ best, pickBest candidates = some best →
        settings.allowLargerOutput = false →
        originalBytes ≤ applyBytes best →
        runOptimizeDecision originalBytes candidates applyBytes finalNamedPath
          settings = skipDecision originalBytes "Skipped (larger)") := by
  constructor
  · intro hsucc
    rcases runOptimizeDecision_cases originalBytes candidates applyBytes
        finalNamedPath settings with h | h | ⟨best, hp, hskip, heq⟩
    · rw [h] at hsucc; exact absurd hsucc (by simp [skipDecision])
    · rw [h] at hsucc; exact absurd hsucc (by simp [skipDecision])
    · rw [heq]
      refine ⟨?_, ?_, rfl⟩
      · intro hallow
        have hnle : ¬ (originalBytes ≤ applyBytes best) := by
          intro hge
          rw [shouldSkipIfLarger, hallow] at hskip
          simp [hge] at hskip
        exact Nat.lt_of_not_le hnle
      · show (jsBytesSaved originalBytes (applyBytes best) : Int) = _
        unfold jsBytesSaved
        exact Int.toNat_of_nonneg (le_max_left 0 _)
  · intro best hp hallow hge
    have hskip : shouldSkipIfLarger originalBytes (applyBytes best) settings
        = true := by
      simp [shouldSkipIfLarger, hallow, hge]
    unfold runOptimizeDecision
    rw [hp]
    simp [hskip]

theorem C3_witness :
    ((runOptimizeDecision 10 sampleCandidates (fun c => c.bytes) "out.jpg"
        sampleSettings).status = .success →
      (sampleSettings.allowLargerOutput = false →
        (runOptimizeDecision 10 sampleCandidates (fun c => c.bytes) "out.jpg"
          sampleSettings).outputBytes < 10)
      ∧ ((runOptimizeDecision 10 sampleCandidates (fun c => c.bytes) "out.jpg"
            sampleSettings).bytesSaved : Int)
          = max 0 ((10 : Int)
              - ((runOptimizeDecision 10 sampleCandidates (fun c => c.bytes)
                  "out.jpg" sampleSettings).outputBytes : Int))
      ∧ (runOptimizeDecision 10 sampleCandidates (fun c => c.bytes) "out.jpg"
          sampleSettings).originalBytes = 10) ∧
    runOptimizeDecision 1 sampleCandidates (fun c => c.bytes) "out.jpg"
        sampleSettings = skipDecision 1 "Skipped (larger)" :=
  ⟨(C3_success_output_smaller 10 sampleCandidates (fun c => c.bytes) "out.jpg"
      sampleSettings).1,
   (C3_success_output_smaller 1 sampleCandidates (fun c => c.bytes) "out.jpg"
      sampleSettings).2
     { buffer := [1, 2], bytes := 2, qualityLabel := "q84", format := .jpeg }
     (by decide) rfl (by decide)⟩

/-! ## C4 -/

/-- C4: a lossy ladder candidate accepted while the SSIM guard is on has
MSSIM at least 0.995 (0.99 with `aggressivePng`); with the guard off the
threshold is 0 and every candidate with a nonnegative similarity passes
the SSIM check. -/
theorem C4_ssim_guard
    (settings : EffectiveSettings) (candidate : CandidateFile)
    (result : CandidateResult) (similarity : ℚ) :
    (settings.qualityGuardrailSsim = true →
      candidate.needsSsim = true →
      ∀ accepted,
        evaluateCandidate candidate result similarity (getSsimThreshold settings)
          = some accepted →
        (if settings.aggressivePng then SSIM_THRESHOLD_AGGRESSIVE
          else SSIM_THRESHOLD_NORMAL) ≤ similarity
        ∧ accepted.ssim = some similarity)
    ∧ (settings.qualityGuardrailSsim = false →
        getSsimThreshold settings = 0
        ∧ (0 ≤ similarity →
            evaluateCandidate candidate result similarity
                (getSsimThreshold settings)
              = some { result with ssim := some similarity }
              ∨ evaluateCandidate candidate result similarity
                  (getSsimThreshold settings) = some result)) := by
  constructor
  · intro hguard hlossy accepted hacc
    unfold evaluateCandidate at hacc
    rw [hlossy] at hacc
    simp only [Bool.not_true, Bool.false_eq_true, if_false] at hacc
    by_cases hlt : similarity < getSsimThreshold settings
    · rw [if_pos hlt] at hacc; exact absurd hacc (by simp)
    · rw [if_neg hlt] at hacc
      have hth : getSsimThreshold settings
          = if settings.aggressivePng then SSIM_THRESHOLD_AGGRESSIVE
            else SSIM_THRESHOLD_NORMAL := by
        unfold getSsimThreshold
        rw [hguard]
        rfl
      refine ⟨?_, ?_⟩
      · rw [← hth]; exact not_lt.mp hlt
      · have := hacc.symm
        rw [Option.some.injEq] at hacc
        rw [← hacc]
  · intro hguard
    have hth : getSsimThreshold settings = 0 := by
      unfold getSsimThreshold
      rw [hguard]
      rfl
    refine ⟨hth, fun hnonneg => ?_⟩
    unfold evaluateCandidate
    rw [hth]
    by_cases hneed : candidate.needsSsim = true
    · left
      rw [hneed]
      simp only [Bool.not_true, Bool.false_eq_true, if_false]
      rw [if_neg (not_lt.mpr hnonneg)]
    · right
      have : candidate.needsSsim = false := by
        exact Bool.eq_false_iff.mpr hneed
      rw [this]
      rfl

theorem C4_witness :
    (mkRat 995 1000 ≤ mkRat 998 1000
      ∧ ({ buffer := [1, 2], bytes := 2, qualityLabel := "q84",
            format := ImageFormat.jpeg,
            ssim := some (mkRat 998 1000) } : CandidateResult).ssim
          = some (mkRat 998 1000)) ∧
    getSsimThreshold { sampleSettings with qualityGuardrailSsim := false } = 0 :=
  ⟨by
    have h := (C4_ssim_guard sampleSettings
      { format := .jpeg, label := "q84", needsSsim := true }
      { buffer := [1, 2], bytes := 2, qualityLabel := "q84", format := .jpeg }
      (mkRat 998 1000)).1 rfl rfl
      { buffer := [1, 2], bytes := 2, qualityLabel := "q84",
        format := .jpeg, ssim := some (mkRat 998 1000) } (by decide)
    simpa [sampleSettings, SSIM_THRESHOLD_NORMAL] using h,
   ((C4_ssim_guard { sampleSettings with qualityGuardrailSsim := false }
      { format := .jpeg, label := "q84", needsSsim := true }
      { buffer := [1, 2], bytes := 2, qualityLabel := "q84", format := .jpeg }
      (mkRat 998 1000)).2 rfl).1⟩

/-! ## Smart quality search (optimizer/smartSearch.ts) -/

/-- The slice of `ImageFeatures` (optimizer/analysis.ts) the smart search
depends on. -/
structure ImageFeatures where
  width : Nat
  height : Nat
  isPhoto : Bool
  deriving DecidableEq, Repr

/-- Models `MetricResult` (optimizer/metrics/ssim.ts). -/
structure MetricResult where
  mssim : ℚ
  edgeSsim : ℚ
  bandingRisk : ℚ
  deriving DecidableEq, Repr

/-- Models `SearchResult` (optimizer/smartSearch.ts). -/
structure SearchResult where
  quality : Nat
  metrics : MetricResult
  buffer : List Nat
  deriving DecidableEq, Repr

/-- Models `TARGET_THRESHOLDS` (optimizer/smartSearch.ts). -/
def TARGET_THRESHOLDS : SmartTarget → ℚ
  | .visuallyLossless => mkRat 999 1000
  | .high => mkRat 995 1000
  | .balanced => mkRat 99 100
  | .small => mkRat 98 100
  | .custom => mkRat 99 100

/-- The hard-coded banding-risk veto threshold `0.05`. -/
def BANDING_RISK_LIMIT : ℚ := mkRat 5 100

/-- The target threshold computed at the top of `findOptimalQuality`:
`qualityGuardrail / 100` for the custom target, the table value
otherwise. -/
def smartTargetThreshold (settings : EffectiveSettings) : ℚ :=
  if settings.smartTarget = .custom then settings.qualityGuardrail / 100
  else TARGET_THRESHOLDS settings.smartTarget

/-- The iteration budget: fast 4, balanced 6, thorough 8. -/
def smartIterations : OptimizationSpeed → Nat
  | .fast => 4
  | .balanced => 6
  | .thorough => 8

/-- The initial lower bound of the search: 10, raised to 70 when the
image is not a photo and the format is JPEG. -/
def smartInitialMin (features : ImageFeatures) (format : ImageFormat) : Nat :=
  if !features.isPhoto && decide (format = ImageFormat.jpeg) then 70 else 10

/-- The acceptance test of one search step:
`mssim >= targetThreshold && bandingRisk < 0.05`. -/
def smartStepPasses (threshold : ℚ) (m : MetricResult) : Bool :=
  decide (threshold ≤ m.mssim) && decide (m.bandingRisk < BANDING_RISK_LIMIT)

/-- The `for` loop of `findOptimalQuality`, with the remaining iteration
count as fuel.  `encode` stands for `encodeAndMeasure` (an external
encoder plus the metric engine); it returns the measured metrics and the
candidate buffer, or none when the encode fails.  Each step probes
`q = ⌊(lo + hi) / 2⌋`; a passing candidate becomes the new best and the
upper bound becomes `q - 1`, otherwise the lower bound becomes `q + 1`;
the loop exits when the bounds cross or the fuel runs out.  Bounds are
nonnegative JS integers in the source and the probe never reaches 0 from
the initial bounds, so Nat subtraction agrees with the source. -/
def smartSearchLoop (encode : Nat → Option (MetricResult × List Nat))
    (threshold : ℚ) :
    Nat → Nat → Nat → Option SearchResult → Option SearchResult
  | 0, _, _, best => best
  | fuel + 1, lo, hi, best =>
    match encode ((lo + hi) / 2) with
    | some m =>
      if smartStepPasses threshold m.1 then
        if lo > (lo + hi) / 2 - 1 then
          some ⟨(lo + hi) / 2, m.1, m.2⟩
        else
          smartSearchLoop encode threshold fuel lo ((lo + hi) / 2 - 1)
            (some ⟨(lo + hi) / 2, m.1, m.2⟩)
      else
        if (lo + hi) / 2 + 1 > hi then best
        else smartSearchLoop encode threshold fuel ((lo + hi) / 2 + 1) hi best
    | none =>
      if (lo + hi) / 2 + 1 > hi then best
      else smartSearchLoop encode threshold fuel ((lo + hi) / 2 + 1) hi best

/-- Models `findOptimalQuality` (optimizer/smartSearch.ts). -/
def findOptimalQuality (encode : Nat → Option (MetricResult × List Nat))
    (features : ImageFeatures) (settings : EffectiveSettings)
    (format : ImageFormat) : Option SearchResult :=
  smartSearchLoop encode (smartTargetThreshold settings)
    (smartIterations settings.optimizationSpeed)
    (smartInitialMin features format) 95 none

lemma smartSearchLoop_sound (encode : Nat → Option (MetricResult × List Nat))
    (threshold : ℚ) :
    ∀ fuel lo hi best,
      (∀ b, best = some b → smartStepPasses threshold b.metrics = true) →
      ∀ r, smartSearchLoop encode threshold fuel lo hi best = some r →
        smartStepPasses threshold r.metrics = true := by
  intro fuel
  induction fuel with
  | zero =>
    intro lo hi best hbest r hr
    exact hbest r hr
  | succ n ih =>
    intro lo hi best hbest r hr
    rw [smartSearchLoop] at hr
    split at hr
    · rename_i m heq
      split at hr
      · rename_i hp
        split at hr
        · cases hr
          exact hp
        · refine ih _ _ _ ?_ r hr
          intro b hb
          cases hb
          exact hp
      · split at hr
        · exact hbest r hr
        · exact ih _ _ _ hbest r hr
    · split at hr
      · exact hbest r hr
      · exact ih _ _ _ hbest r hr

/-! ## C2 -/

/-- C2: the smart-search target threshold per `smartTarget`, its
initial bounds `[10, 95]` with the lower bound raised to 70 for
non-photo JPEG inputs, its iteration budget per speed, its step
behaviour (probe at `⌊(lo+hi)/2⌋`; pass records best and lowers the
upper bound, fail raises the lower bound; stop when bounds cross or
the fuel runs out), and soundness: any returned result has
`mssim ≥ threshold` and `bandingRisk < 0.05`. -/
theorem C2_findOptimalQuality_spec
    (encode : Nat → Option (MetricResult × List Nat))
    (features : ImageFeatures) (settings : EffectiveSettings)
    (format : ImageFormat) :
    ((settings.smartTarget = .visuallyLossless →
        smartTargetThreshold settings = mkRat 999 1000)
      ∧ (settings.smartTarget = .high →
          smartTargetThreshold settings = mkRat 995 1000)
      ∧ (settings.smartTarget = .balanced →
          smartTargetThreshold settings = mkRat 99 100)
      ∧ (settings.smartTarget = .small →
          smartTargetThreshold settings = mkRat 98 100)
      ∧ (settings.smartTarget = .custom →
          smartTargetThreshold settings = settings.qualityGuardrail / 100))
    ∧ ((features.isPhoto = false ∧ format = ImageFormat.jpeg →
          smartInitialMin features format = 70)
      ∧ (features.isPhoto = true ∨ format ≠ ImageFormat.jpeg →
          smartInitialMin features format = 10)
      ∧ (smartIterations .fast = 4 ∧ smartIterations .balanced = 6
          ∧ smartIterations .thorough = 8)
      ∧ findOptimalQuality encode features settings format
          = smartSearchLoop encode (smartTargetThreshold settings)
              (smartIterations settings.optimizationSpeed)
              (smartInitialMin features format) 95 none)
    ∧ (∀ fuel lo hi best m, encode ((lo + hi) / 2) = some m →
        (smartStepPasses (smartTargetThreshold settings) m.1 = true →
          smartSearchLoop encode (smartTargetThreshold settings) (fuel + 1)
              lo hi best
            = if lo > (lo + hi) / 2 - 1 then
                some ⟨(lo + hi) / 2, m.1, m.2⟩
              else
                smartSearchLoop encode (smartTargetThreshold settings) fuel
                  lo ((lo + hi) / 2 - 1) (some ⟨(lo + hi) / 2, m.1, m.2⟩))
        ∧ (smartStepPasses (smartTargetThreshold settings) m.1 = false →
          smartSearchLoop encode (smartTargetThreshold settings) (fuel + 1)
              lo hi best
            = if (lo + hi) / 2 + 1 > hi then best
              else smartSearchLoop encode (smartTargetThreshold settings) fuel
                ((lo + hi) / 2 + 1) hi best))
    ∧ (∀ r, findOptimalQuality encode features settings format = some r →
        smartTargetThreshold settings ≤ r.metrics.mssim
        ∧ r.metrics.bandingRisk < BANDING_RISK_LIMIT) := by
  refine ⟨⟨?_, ?_, ?_, ?_, ?_⟩, ⟨?_, ?_, ⟨rfl, rfl, rfl⟩, rfl⟩, ?_, ?_⟩
  · intro h; simp [smartTargetThreshold, h, TARGET_THRESHOLDS]
  · intro h; simp [smartTargetThreshold, h, TARGET_THRESHOLDS]
  · intro h; simp [smartTargetThreshold, h, TARGET_THRESHOLDS]
  · intro h; simp [smartTargetThreshold, h, TARGET_THRESHOLDS]
  · intro h; simp [smartTargetThreshold, h]
  · rintro ⟨h1, h2⟩; simp [smartInitialMin, h1, h2]
  · intro h
    rcases h with h | h
    · simp [smartInitialMin, h]
    · simp [smartInitialMin, h]
  · intro fuel lo hi best m hm
    constructor
    · intro hpass
      rw [smartSearchLoop, hm]
      simp [hpass]
    · intro hfail
      rw [smartSearchLoop, hm]
      simp [hfail]
  · intro r hr
    have h := smartSearchLoop_sound encode (smartTargetThreshold settings)
      (smartIterations settings.optimizationSpeed)
      (smartInitialMin features format) 95 none (by intro b hb; cases hb) r hr
    simp only [smartStepPasses, Bool.and_eq_true, decide_eq_true_eq] at h
    exact h

/-- Smart-mode sample settings used to evaluate theorems on concrete
inputs. -/
def smartSampleSettings : EffectiveSettings :=
  { allowLargerOutput := false
    qualityGuardrailSsim := true
    aggressivePng := false
    smartCompressionMode := true
    smartTarget := .balanced
    qualityGuardrail := 90
    optimizationSpeed := .fast
    keepMetadata := false
    outputMode := .subfolder }

/-- A sample encode oracle: every quality passes with MSSIM 0.999 and no
banding risk. -/
def sampleEncode (q : Nat) : Option (MetricResult × List Nat) :=
  some ({ mssim := mkRat 999 1000, edgeSsim := mkRat 999 1000,
          bandingRisk := 0 }, [q])

/-- The sample features of a photo. -/
def samplePhotoFeatures : ImageFeatures :=
  { width := 1920, height := 1080, isPhoto := true }

theorem C2_witness :
    smartTargetThreshold smartSampleSettings
      ≤ ({ quality := 14,
           metrics := { mssim := mkRat 999 1000, edgeSsim := mkRat 999 1000,
                        bandingRisk := 0 },
           buffer := [14] } : SearchResult).metrics.mssim
    ∧ ({ quality := 14,
         metrics := { mssim := mkRat 999 1000, edgeSsim := mkRat 999 1000,
                      bandingRisk := 0 },
         buffer := [14] } : SearchResult).metrics.bandingRisk
        < BANDING_RISK_LIMIT :=
  (C2_findOptimalQuality_spec sampleEncode samplePhotoFeatures
      smartSampleSettings .jpeg).2.2.2
    { quality := 14,
      metrics := { mssim := mkRat 999 1000, edgeSsim := mkRat 999 1000,
                   bandingRisk := 0 },
      buffer := [14] }
    (by decide)

/-! ## Job state machine (core/jobs.ts, `JobStateMachine`) -/

inductive JobStatus
  | queued
  | running
  | success
  | failed
  | skipped
  | cancelled
  deriving DecidableEq, Repr

inductive JobStage
  | analyzing
  | decoding
  | transforming
  | encoding
  | writing
  | verifying
  | cleaning
  deriving DecidableEq, Repr

structure JobProgress where
  percent : Nat
  stage : JobStage
  deriving DecidableEq, Repr

structure JobResult where
  status : JobStatus
  originalBytes : Nat
  outputBytes : Nat
  bytesSaved : Nat
  warnings : List String
  deriving DecidableEq, Repr

/-- The mutable fields of `JobStateMachine`. -/
structure JobState where
  status : JobStatus := .queued
  progress : JobProgress := { percent := 0, stage := .analyzing }
  result : Option JobResult := none
  deriving DecidableEq, Repr

/-- Models `start()`: throws unless the job is queued, else moves to running. -/
def JobState.start (s : JobState) : Except String JobState :=
  if s.status ≠ .queued then .error "Cannot start job in state"
  else .ok { s with status := .running }

/-- Models `updateProgress()`: a no-op unless the job is running. -/
def JobState.updateProgress (s : JobState) (percent : Nat) (stage : JobStage) :
    JobState :=
  if s.status ≠ .running then s
  else { s with progress := { percent := percent, stage := stage } }

/-- Models `succeed()`: a no-op unless the job is running. -/
def JobState.succeed (s : JobState) (r : JobResult) : JobState :=
  if s.status ≠ .running then s
  else { s with status := .success, result := some { r with status := .success } }

/-- Models `fail()`: a no-op unless the job is running or queued. -/
def JobState.fail (s : JobState) (r : JobResult) : JobState :=
  if s.status ≠ .running ∧ s.status ≠ .queued then s
  else { s with status := .failed, result := some { r with status := .failed } }

/-- Models `cancel()`: a no-op when the job already succeeded, failed or was
skipped. -/
def JobState.cancel (s : JobState) : JobState :=
  if s.status = .success ∨ s.status = .failed ∨ s.status = .skipped then s
  else { s with status := .cancelled }

/-- Models `skip()`: a no-op unless the job is queued or running. -/
def JobState.skip (s : JobState) (reason : String) (originalBytes : Nat) :
    JobState :=
  if s.status ≠ .queued ∧ s.status ≠ .running then s
  else
    { s with
      status := .skipped
      result := some
        { status := .skipped, originalBytes := originalBytes,
          outputBytes := originalBytes, bytesSaved := 0,
          warnings := [reason] } }

/-- The terminal statuses of the lifecycle
`queued → running → (success | failed | skipped | cancelled)`. -/
def JobStatus.isTerminal : JobStatus → Bool
  | .success => true
  | .failed => true
  | .skipped => true
  | .cancelled => true
  | _ => false

/-! ## C6 -/

/-- C6: no mutating method leaves a terminal state (each is a no-op or an
error there), `running` is reachable only from `queued` (only `start`
produces it, and only from `queued`), and `skipped` is reachable from
both `queued` and `running`. -/
theorem C6_job_state_machine (s : JobState) (percent : Nat) (stage : JobStage)
    (r : JobResult) (reason : String) (n : Nat) :
    (s.status.isTerminal = true →
      (∃ msg, s.start = .error msg)
      ∧ s.updateProgress percent stage = s
      ∧ s.succeed r = s
      ∧ s.fail r = s
      ∧ s.cancel = s
      ∧ s.skip reason n = s)
    ∧ (∀ s', s.start = .ok s' → s.status = .queued ∧ s'.status = .running)
    ∧ ((s.updateProgress percent stage).status = s.status
      ∧ ((s.succeed r).status = .running → s.status = .running)
      ∧ ((s.fail r).status = .running → s.status = .running)
      ∧ (s.cancel.status = .running → s.status = .running)
      ∧ ((s.skip reason n).status = .running → s.status = .running))
    ∧ (s.status = .queued ∨ s.status = .running →
        (s.skip reason n).status = .skipped) := by
  obtain ⟨st, pr, res⟩ := s
  refine ⟨?_, ?_, ?_, ?_⟩
  · intro hterm
    cases st <;>
      simp_all [JobStatus.isTerminal, JobState.start, JobState.updateProgress,
        JobState.succeed, JobState.fail, JobState.cancel, JobState.skip]
  · intro s' hs'
    cases st <;>
      simp_all [JobState.start]
    · exact hs'.symm ▸ rfl
  · cases st <;>
      simp_all [JobState.updateProgress, JobState.succeed, JobState.fail,
        JobState.cancel, JobState.skip]
  · intro h
    cases st <;>
      simp_all [JobState.skip]

theorem C6_witness :
    (let s : JobState := { status := .success }
     (∃ msg, s.start = .error msg)
      ∧ s.updateProgress 50 .encoding = s
      ∧ s.succeed { status := .success, originalBytes := 1, outputBytes := 1,
                    bytesSaved := 0, warnings := [] } = s
      ∧ s.fail { status := .failed, originalBytes := 1, outputBytes := 1,
                 bytesSaved := 0, warnings := [] } = s
      ∧ s.cancel = s
      ∧ s.skip "reason" 1 = s)
    ∧ (({ status := .queued } : JobState).skip "No candidate" 1).status
        = .skipped
    ∧ (({ status := .running } : JobState).skip "No candidate" 1).status
        = .skipped :=
  ⟨(C6_job_state_machine { status := .success } 50 .encoding
      { status := .success, originalBytes := 1, outputBytes := 1,
        bytesSaved := 0, warnings := [] } "reason" 1).1 rfl,
   (C6_job_state_machine { status := .queued } 50 .encoding
      { status := .failed, originalBytes := 1, outputBytes := 1,
        bytesSaved := 0, warnings := [] } "No candidate" 1).2.2.2 (Or.inl rfl),
   (C6_job_state_machine { status := .running } 50 .encoding
      { status := .failed, originalBytes := 1, outputBytes := 1,
        bytesSaved := 0, warnings := [] } "No candidate" 1).2.2.2 (Or.inr rfl)⟩

/-! ## Atomic writer (adapters/fs/atomicWrite.ts) -/

/-- The filesystem slice `atomicWrite` touches: the bytes at the target
path, at the temp path `target.<timestamp>.<rand>.tmp`, and at the backup
path derived from the target. -/
structure FsState where
  target : Option (List Nat)
  tmp : Option (List Nat)
  backup : Option (List Nat)
  deriving DecidableEq, Repr

/-- Success or failure of each fallible filesystem primitive the writer
invokes, plus the format sniff `sharp(tmpPath).metadata()` performs on
the written bytes. -/
structure FsOps where
  mkdirOk : Bool
  writeOk : Bool
  sniff : List Nat → Option ImageFormat
  backupMkdirOk : Bool
  copyOk : Bool
  renameOk : Bool

/-- Models `WriteOptions` (adapters/fs/atomicWrite.ts); `backupDir` records
whether a backup directory was supplied. -/
structure WriteOptions where
  backupDir : Bool
  expectedFormat : Option ImageFormat := none
  skipValidation : Bool := false
  deriving DecidableEq, Repr

/-- Models `WriteResult` (adapters/fs/atomicWrite.ts); `backupPath` records
whether a backup was captured. -/
structure WriteResult where
  success : Bool
  backupPath : Bool
  error : Option String := none
  deriving DecidableEq, Repr

/-- The catch branch of `atomicWrite`: remove the temp file (with
`force`, so removal always succeeds) and report a structured error. -/
def awFail (st : FsState) (msg : String) : WriteResult × FsState :=
  ({ success := false, backupPath := false, error := some msg },
   { st with tmp := none })

/-- Models `atomicWrite` (adapters/fs/atomicWrite.ts): ensure the directory,
write the temp file, validate it (non-empty, and the expected format when
requested), copy the pre-existing target to the backup path when a backup
directory is supplied, then rename the temp file over the target.  Every
failure funnels through the catch branch `awFail`.  The rename is the
only step that modifies the target, and it is atomic: it either installs
the whole buffer or fails leaving the target untouched. -/
def atomicWrite (ops : FsOps) (st : FsState) (buffer : List Nat)
    (options : WriteOptions) : WriteResult × FsState :=
  if !ops.mkdirOk then awFail st "mkdir failed"
  else if !ops.writeOk then awFail st "write failed"
  else
    let st1 : FsState := { st with tmp := some buffer }
    if !options.skipValidation && decide (buffer.length = 0) then
      awFail st1 "Verification failed: written file is empty"
    else if !options.skipValidation
        && (match options.expectedFormat with
            | some f => decide (ops.sniff buffer ≠ some f)
            | none => false) then
      awFail st1 "Verification failed: unexpected format"
    else if st.target.isSome && options.backupDir then
      if !ops.backupMkdirOk then awFail st1 "backup mkdir failed"
      else if !ops.copyOk then awFail st1 "backup copy failed"
      else
        let st2 : FsState := { st1 with backup := st.target }
        if !ops.renameOk then awFail st2 "rename failed"
        else ({ success := true, backupPath := true, error := none },
              { st2 with target := some buffer, tmp := none })
    else
      if !ops.renameOk then awFail st1 "rename failed"
      else ({ success := true, backupPath := false, error := none },
            { st1 with target := some buffer, tmp := none })

/-! ## C5 -/

/-- C5: whenever `atomicWrite` fails at any step it returns
`success = false` with an error message, the temp file is removed, and
the bytes at the target path are unchanged; moreover the target only ever
holds the pre-existing bytes or the complete new buffer, never a partial
write. -/
theorem C5_atomicWrite_failure_safe (ops : FsOps) (st : FsState)
    (buffer : List Nat) (options : WriteOptions) :
    ((atomicWrite ops st buffer options).1.success = false →
      (atomicWrite ops st buffer options).1.error ≠ none
      ∧ (atomicWrite ops st buffer options).2.tmp = none
      ∧ (atomicWrite ops st buffer options).2.target = st.target)
    ∧ ((atomicWrite ops st buffer options).2.target = st.target
      ∨ (atomicWrite ops st buffer options).2.target = some buffer)
    ∧ ((atomicWrite ops st buffer options).1.success = true →
      (atomicWrite ops st buffer options).2.target = some buffer
      ∧ (atomicWrite ops st buffer options).2.tmp = none) := by
  unfold atomicWrite
  repeat' split
  all_goals simp_all [awFail]

theorem C5_witness :
    ((atomicWrite
        { mkdirOk := true, writeOk := true, sniff := fun _ => some .jpeg,
          backupMkdirOk := true, copyOk := true, renameOk := false }
        { target := some [7, 7], tmp := none, backup := none }
        [1, 2, 3]
        { backupDir := false, expectedFormat := some .jpeg }).1.error ≠ none
      ∧ (atomicWrite
          { mkdirOk := true, writeOk := true, sniff := fun _ => some .jpeg,
            backupMkdirOk := true, copyOk := true, renameOk := false }
          { target := some [7, 7], tmp := none, backup := none }
          [1, 2, 3]
          { backupDir := false, expectedFormat := some .jpeg }).2.tmp = none
      ∧ (atomicWrite
          { mkdirOk := true, writeOk := true, sniff := fun _ => some .jpeg,
            backupMkdirOk := true, copyOk := true, renameOk := false }
          { target := some [7, 7], tmp := none, backup := none }
          [1, 2, 3]
          { backupDir := false,
            expectedFormat := some .jpeg }).2.target = some [7, 7]) :=
  (C5_atomicWrite_failure_safe
      { mkdirOk := true, writeOk := true, sniff := fun _ => some .jpeg,
        backupMkdirOk := true, copyOk := true, renameOk := false }
      { target := some [7, 7], tmp := none, backup := none }
      [1, 2, 3]
      { backupDir := false, expectedFormat := some .jpeg }).1 (by decide)

/-! ## Tool runners (optimizer/tools) and PNG candidates -/

/-- The visible outcome of spawning an external tool: clean exit, an
exit with a code and message (`ToolError`), or an unresolvable binary. -/
inductive ToolOutcome
  | ok
  | toolError (exitCode : Option Nat) (message : String)
  | missingBinary (binary : String)
  deriving DecidableEq, Repr

/-- Models `message.includes(pat)` from JS: `pat` occurs as a substring. -/
def stringIncludes (s pat : String) : Bool :=
  go s.toList
where
  go : List Char → Bool
    | [] => pat.toList.isEmpty
    | c :: rest => pat.toList.isPrefixOf (c :: rest) || go rest

/-- The error text `resolveToolPath` throws for a missing binary
(optimizer/tools/common.ts). -/
def missingBinaryMessage (binary : String) : String :=
  "Missing optimizer binary: " ++ binary ++ ". Expected under resources/bin."

/-- Models `runPngquant` (optimizer/tools/pngquant.ts): exit code 99 (the
`--skip-if-larger` outcome) is converted into a plain error marking an
expected skip; other tool errors and the missing-binary error propagate
with their own messages. -/
def runPngquant (outcome : ToolOutcome) : Except String Unit :=
  match outcome with
  | .ok => .ok ()
  | .toolError exitCode message =>
    if exitCode = some 99 then
      .error "Pngquant skipped: output would be larger than input"
    else .error message
  | .missingBinary binary => .error (missingBinaryMessage binary)

/-- Models `runOxipng` (optimizer/tools/oxipng.ts) at the same level of
abstraction: tool errors propagate unchanged. -/
def runOxipng (outcome : ToolOutcome) : Except String Unit :=
  match outcome with
  | .ok => .ok ()
  | .toolError _ message => .error message
  | .missingBinary binary => .error (missingBinaryMessage binary)

/-- The catch clause shared by the candidate builders in
optimizer/pipeline.ts: a failed candidate is swallowed, but a message
containing `Missing optimizer binary` is re-thrown. -/
def swallowOrRethrow (message : String) :
    Except String (Option CandidateResult) :=
  if stringIncludes message "Missing optimizer binary" then .error message
  else .ok none

/-- One iteration of the pngquant range loop in `buildPngCandidates`:
the outcomes of the pngquant and oxipng invocations for this range, the
candidate read back on success, and its SSIM against the original. -/
structure PngRangeAttempt where
  pngquantOutcome : ToolOutcome
  oxipngOutcome : ToolOutcome
  candidate : CandidateResult
  similarity : ℚ
  label : String
  deriving DecidableEq, Repr

/-- The oxipng-lossless attempt at the head of `buildPngCandidates`. -/
structure LosslessAttempt where
  oxipngOutcome : ToolOutcome
  candidate : CandidateResult
  similarity : ℚ
  deriving DecidableEq, Repr

/-- One pngquant range of `buildPngCandidates`: run pngquant then oxipng,
swallow candidate failures (re-throwing missing binaries), and evaluate
the surviving candidate against the SSIM threshold. -/
def processPngRange (threshold : ℚ) (attempt : PngRangeAttempt) :
    Except String (Option CandidateResult) :=
  match runPngquant attempt.pngquantOutcome with
  | .error message => swallowOrRethrow message
  | .ok _ =>
    match runOxipng attempt.oxipngOutcome with
    | .error message => swallowOrRethrow message
    | .ok _ =>
      .ok (evaluateCandidate
        { format := .png, label := attempt.label, needsSsim := true }
        attempt.candidate attempt.similarity threshold)

/-- The oxipng-lossless attempt of `buildPngCandidates`: lossless output
needs no SSIM check. -/
def processLossless (threshold : ℚ) (attempt : LosslessAttempt) :
    Except String (Option CandidateResult) :=
  match runOxipng attempt.oxipngOutcome with
  | .error message => swallowOrRethrow message
  | .ok _ =>
    .ok (evaluateCandidate
      { format := .png, label := "oxipng-lossless", needsSsim := false }
      attempt.candidate attempt.similarity threshold)

def processPngRanges (threshold : ℚ) :
    List PngRangeAttempt → Except String (List CandidateResult)
  | [] => .ok []
  | a :: rest =>
    match processPngRange threshold a with
    | .error message => .error message
    | .ok cur =>
      match processPngRanges threshold rest with
      | .error message => .error message
      | .ok tail => .ok (cur.toList ++ tail)

/-- Models `buildPngCandidates` (optimizer/pipeline.ts): the oxipng-lossless
candidate first, then one pngquant+oxipng candidate per quality range;
a re-thrown missing-binary error aborts the whole builder. -/
def buildPngCandidates (settings : EffectiveSettings)
    (lossless : LosslessAttempt) (ranges : List PngRangeAttempt) :
    Except String (List CandidateResult) :=
  match processLossless (getSsimThreshold settings) lossless with
  | .error message => .error message
  | .ok first =>
    match processPngRanges (getSsimThreshold settings) ranges with
    | .error message => .error message
    | .ok rest => .ok (first.toList ++ rest)

/-! ## C7 -/

lemma processPngRange_exit99 (threshold : ℚ) (attempt : PngRangeAttempt)
    (code : Option Nat) (message : String)
    (hq : attempt.pngquantOutcome = .toolError code message)
    (h99 : code = some 99) :
    processPngRange threshold attempt = .ok none := by
  subst h99
  unfold processPngRange
  rw [hq]
  rfl

/-- C7: a pngquant exit with code 99 is surfaced as a skip, not a job
failure: `runPngquant` converts it into a plain error whose message does
not mark a missing binary, the candidate loop swallows it and drops only
that candidate, the oxipng-lossless candidate is still produced, and an
empty candidate list yields a skipped decision with a reason — the
optimize decision never reports `failed`. -/
theorem C7_pngquant_exit99_is_skip
    (settings : EffectiveSettings) (lossless : LosslessAttempt)
    (pre post : List PngRangeAttempt) (attempt : PngRangeAttempt)
    (code : Option Nat) (message : String)
    (originalBytes : Nat) (applyBytes : CandidateResult → Nat)
    (finalNamedPath : String) :
    (runPngquant (.toolError (some 99) message)
        = .error "Pngquant skipped: output would be larger than input"
      ∧ stringIncludes "Pngquant skipped: output would be larger than input"
          "Missing optimizer binary" = false)
    ∧ (attempt.pngquantOutcome = .toolError code message → code = some 99 →
        buildPngCandidates settings lossless (pre ++ attempt :: post)
          = buildPngCandidates settings lossless (pre ++ post))
    ∧ (lossless.oxipngOutcome = .ok →
        ∀ rest, processPngRanges (getSsimThreshold settings)
            (pre ++ post) = .ok rest →
          buildPngCandidates settings lossless (pre ++ post)
            = .ok (lossless.candidate :: rest))
    ∧ (runOptimizeDecision originalBytes [] applyBytes finalNamedPath settings
        = skipDecision originalBytes "No candidate met quality threshold")
    ∧ (∀ cs, (runOptimizeDecision originalBytes cs applyBytes finalNamedPath
        settings).status ≠ .failed) := by
  refine ⟨⟨rfl, by decide⟩, ?_, ?_, rfl, ?_⟩
  · intro hq h99
    unfold buildPngCandidates
    have hdrop : ∀ l : List PngRangeAttempt,
        processPngRanges (getSsimThreshold settings) (l ++ attempt :: post)
          = processPngRanges (getSsimThreshold settings) (l ++ post) := by
      intro l
      induction l with
      | nil =>
        simp only [List.nil_append]
        simp only [processPngRanges]
        rw [processPngRange_exit99 _ attempt code message hq h99]
        rcases hps : processPngRanges (getSsimThreshold settings) post
          with msg | tail
        · rfl
        · rfl
      | cons b bs ih =>
        simp only [List.cons_append]
        simp only [processPngRanges]
        rw [ih]
    rw [hdrop pre]
  · intro hok rest hrest
    unfold buildPngCandidates processLossless
    rw [hok, hrest]
    rfl
  · intro cs
    rcases runOptimizeDecision_cases originalBytes cs applyBytes
        finalNamedPath settings with h | h | ⟨best, _, _, h⟩ <;>
      rw [h] <;> simp [skipDecision]

/-- A sample lossless attempt whose oxipng invocation succeeds. -/
def sampleLossless : LosslessAttempt :=
  { oxipngOutcome := .ok
    candidate :=
      { buffer := [9, 9], bytes := 2, qualityLabel := "oxipng-lossless",
        format := .png }
    similarity := 1 }

/-- A sample pngquant range attempt that exits with code 99. -/
def sample99 : PngRangeAttempt :=
  { pngquantOutcome := .toolError (some 99) "pngquant exited 99"
    oxipngOutcome := .ok
    candidate :=
      { buffer := [1], bytes := 1, qualityLabel := "pngquant-80-95",
        format := .png }
    similarity := 1
    label := "80-95" }

theorem C7_witness :
    buildPngCandidates sampleSettings sampleLossless ([] ++ sample99 :: [])
      = buildPngCandidates sampleSettings sampleLossless ([] ++ [])
    ∧ buildPngCandidates sampleSettings sampleLossless ([] ++ [])
      = .ok [sampleLossless.candidate] :=
  ⟨(C7_pngquant_exit99_is_skip sampleSettings sampleLossless [] [] sample99
      (some 99) "pngquant exited 99" 10 (fun c => c.bytes) "out.png").2.1
      rfl rfl,
   (C7_pngquant_exit99_is_skip sampleSettings sampleLossless [] [] sample99
      (some 99) "pngquant exited 99" 10 (fun c => c.bytes) "out.png").2.2.1
      rfl [] rfl⟩

/-! ## Run coordinator summary accounting (services/runService.ts,
`executeRun`, non-responsive modes) -/

/-- The per-file statuses `executeRun` reports. -/
inductive FileStatus
  | processing
  | done
  | skipped
  | failed
  | cancelled
  deriving DecidableEq, Repr

/-- The data the counting loop consumes from an ok worker response: the
mode-relevant action (if any), the original size, and whether the WebP
action succeeded. -/
structure OkResponse where
  action : Option ActionDecision
  originalBytes : Nat
  webpSuccess : Bool
  deriving DecidableEq, Repr

/-- One worker response as the counting loop sees it. -/
inductive WorkerOutcome
  | failedResponse (message : String)
  | okResponse (response : OkResponse)
  deriving DecidableEq, Repr

/-- Models `inferFileStatus` collapsed over the mode: no relevant action or a
skipped action reads as Skipped, a failed action as Failed, otherwise
Done. -/
def inferFileStatus (action : Option ActionDecision) : FileStatus :=
  match action with
  | none => .skipped
  | some a =>
    match a.status with
    | .failed => .failed
    | .skipped => .skipped
    | .success => .done

/-- Models the per-file output size the loop accumulates: the output of
the relevant action when it succeeded, else the original size. -/
def responseOutputBytes (r : OkResponse) : Nat :=
  match r.action with
  | some a => if a.status = .success then a.outputBytes else r.originalBytes
  | none => r.originalBytes

/-- The mutable counters of `executeRun`. -/
structure RunCounters where
  done : Nat
  skipped : Nat
  failed : Nat
  converted : Nat
  totalOriginalBytes : Nat
  totalOutputBytes : Nat
  savedBytes : Nat
  deriving DecidableEq, Repr

def initialCounters : RunCounters :=
  { done := 0, skipped := 0, failed := 0, converted := 0,
    totalOriginalBytes := 0, totalOutputBytes := 0, savedBytes := 0 }

/-- The worker-loop body of `executeRun`: `done` always advances; a
failed response advances `failed` and accumulates no bytes; an ok
response accumulates bytes and advances `skipped` when the inferred
status is Skipped or Cancelled. -/
def countOutcome (c : RunCounters) (o : WorkerOutcome) : RunCounters :=
  match o with
  | .failedResponse _ =>
    { c with done := c.done + 1, failed := c.failed + 1 }
  | .okResponse r =>
    { c with
      done := c.done + 1
      converted := c.converted + (if r.webpSuccess then 1 else 0)
      totalOriginalBytes := c.totalOriginalBytes + r.originalBytes
      totalOutputBytes := c.totalOutputBytes + responseOutputBytes r
      savedBytes := c.savedBytes
        + jsBytesSaved r.originalBytes (responseOutputBytes r)
      skipped := c.skipped
        + (if inferFileStatus r.action = .skipped
            ∨ inferFileStatus r.action = .cancelled then 1 else 0) }

/-- The cancellation tail of `executeRun`: each never-started file
advances both `done` and `skipped`. -/
def countCancelledTail (c : RunCounters) (remainder : Nat) : RunCounters :=
  { c with done := c.done + remainder, skipped := c.skipped + remainder }

/-- Models `RunSummary` (shared/types.ts), byte and count fields. -/
structure RunSummary where
  totalFiles : Nat
  processedFiles : Nat
  convertedFiles : Nat
  skippedFiles : Nat
  failedFiles : Nat
  totalOriginalBytes : Nat
  totalOutputBytes : Nat
  totalSavedBytes : Nat
  deriving DecidableEq, Repr

/-- The summary built at the end of `executeRun`: every resolved file is
either consumed by a worker (one `WorkerOutcome` in order) or counted by
the cancellation tail (`remainder` files never started);
`totalSavedBytes` is recomputed as `max(0, orig − out)`. -/
def executeRunSummary (outcomes : List WorkerOutcome) (remainder : Nat) :
    RunSummary :=
  let c := countCancelledTail (outcomes.foldl countOutcome initialCounters)
    remainder
  { totalFiles := outcomes.length + remainder
    processedFiles := c.done
    convertedFiles := c.converted
    skippedFiles := c.skipped
    failedFiles := c.failed
    totalOriginalBytes := c.totalOriginalBytes
    totalOutputBytes := c.totalOutputBytes
    totalSavedBytes := jsBytesSaved c.totalOriginalBytes c.totalOutputBytes }

/-! ## C8 -/

lemma jsBytesSaved_cast (a b : Nat) :
    (jsBytesSaved a b : Int) = max 0 ((a : Int) - (b : Int)) := by
  unfold jsBytesSaved
  exact Int.toNat_of_nonneg (le_max_left 0 _)

lemma countOutcome_done (c : RunCounters) (o : WorkerOutcome) :
    (countOutcome c o).done = c.done + 1 := by
  cases o <;> rfl

lemma countOutcome_skipped_failed (c : RunCounters) (o : WorkerOutcome) :
    (countOutcome c o).skipped + (countOutcome c o).failed
      ≤ c.skipped + c.failed + 1 := by
  cases o with
  | failedResponse m => show c.skipped + (c.failed + 1) ≤ _; omega
  | okResponse r =>
    show c.skipped + (if _ then 1 else 0) + c.failed ≤ _
    split <;> omega

/-- No counted output is larger than its original: what
`allowLargerOutput = false` guarantees per file. -/
def outcomeNotLarger : WorkerOutcome → Prop
  | .failedResponse _ => True
  | .okResponse r => responseOutputBytes r ≤ r.originalBytes

instance : DecidablePred outcomeNotLarger := fun o =>
  match o with
  | .failedResponse _ => .isTrue trivial
  | .okResponse r =>
    inferInstanceAs (Decidable (responseOutputBytes r ≤ r.originalBytes))

lemma countOutcome_bytes (c : RunCounters) (o : WorkerOutcome)
    (ho : outcomeNotLarger o)
    (hc : c.totalOutputBytes ≤ c.totalOriginalBytes) :
    (countOutcome c o).totalOutputBytes
      ≤ (countOutcome c o).totalOriginalBytes := by
  cases o with
  | failedResponse m => exact hc
  | okResponse r =>
    show c.totalOutputBytes + responseOutputBytes r
      ≤ c.totalOriginalBytes + r.originalBytes
    exact Nat.add_le_add hc ho

lemma foldl_countOutcome_done (outcomes : List WorkerOutcome) :
    ∀ c : RunCounters,
      (outcomes.foldl countOutcome c).done = c.done + outcomes.length := by
  induction outcomes with
  | nil => intro c; simp
  | cons o os ih =>
    intro c
    show (os.foldl countOutcome (countOutcome c o)).done = _
    rw [ih, countOutcome_done]
    simp
    omega

lemma foldl_countOutcome_skipped_failed (outcomes : List WorkerOutcome) :
    ∀ c : RunCounters,
      (outcomes.foldl countOutcome c).skipped
          + (outcomes.foldl countOutcome c).failed
        ≤ c.skipped + c.failed + outcomes.length := by
  induction outcomes with
  | nil => intro c; simp
  | cons o os ih =>
    intro c
    simp only [List.foldl_cons, List.length_cons]
    have h1 := ih (countOutcome c o)
    have h2 := countOutcome_skipped_failed c o
    omega

lemma foldl_countOutcome_bytes (outcomes : List WorkerOutcome)
    (ho : ∀ o ∈ outcomes, outcomeNotLarger o) :
    ∀ c : RunCounters, c.totalOutputBytes ≤ c.totalOriginalBytes →
      (outcomes.foldl countOutcome c).totalOutputBytes
        ≤ (outcomes.foldl countOutcome c).totalOriginalBytes := by
  induction outcomes with
  | nil => intro c hc; exact hc
  | cons o os ih =>
    intro c hc
    show (os.foldl countOutcome (countOutcome c o)).totalOutputBytes ≤ _
    exact ih (fun x hx => ho x (List.mem_cons_of_mem o hx))
      (countOutcome c o)
      (countOutcome_bytes c o (ho o (List.mem_cons_self o os)) hc)

/-- C8 counterexample: a completed run over one file whose optimize
action was a skip has `totalFiles = 1` but
`processedFiles + skippedFiles + failedFiles + cancelled = 2` (the
summary has no cancelled counter; taking it as 0), so the claimed
aggregate identity fails. -/
theorem C8_counterexample :
    ¬ ((executeRunSummary
          [.okResponse
            { action := some (skipDecision 10 "No candidate met quality threshold")
              originalBytes := 10
              webpSuccess := false }] 0).totalFiles
        = (executeRunSummary
            [.okResponse
              { action := some (skipDecision 10 "No candidate met quality threshold")
                originalBytes := 10
                webpSuccess := false }] 0).processedFiles
          + (executeRunSummary
              [.okResponse
                { action := some (skipDecision 10 "No candidate met quality threshold")
                  originalBytes := 10
                  webpSuccess := false }] 0).skippedFiles
          + (executeRunSummary
              [.okResponse
                { action := some (skipDecision 10 "No candidate met quality threshold")
                  originalBytes := 10
                  webpSuccess := false }] 0).failedFiles
          + 0) := by
  decide

/-- C8 (amended): in the emitted summary `totalFiles` equals
`processedFiles` (the `done` counter counts every file, with skipped,
failed and tail-cancelled files included in it — cancelled files are
also folded into `skippedFiles`, which together with `failedFiles` never
exceeds `processedFiles`), and
`totalSavedBytes = max(0, totalOriginalBytes − totalOutputBytes)`;
when no counted output is larger than its original (the
allow-larger-output caveat) the subtraction identity is exact. -/
theorem C8_summary_identity (outcomes : List WorkerOutcome)
    (remainder : Nat) :
    ((executeRunSummary outcomes remainder).totalFiles
        = (executeRunSummary outcomes remainder).processedFiles)
    ∧ ((executeRunSummary outcomes remainder).skippedFiles
          + (executeRunSummary outcomes remainder).failedFiles
        ≤ (executeRunSummary outcomes remainder).processedFiles)
    ∧ (((executeRunSummary outcomes remainder).totalSavedBytes : Int)
        = max 0 (((executeRunSummary outcomes remainder).totalOriginalBytes : Int)
            - ((executeRunSummary outcomes remainder).totalOutputBytes : Int)))
    ∧ ((∀ o ∈ outcomes, outcomeNotLarger o) →
        ((executeRunSummary outcomes remainder).totalOriginalBytes : Int)
            - ((executeRunSummary outcomes remainder).totalOutputBytes : Int)
          = ((executeRunSummary outcomes remainder).totalSavedBytes : Int)) := by
  unfold executeRunSummary countCancelledTail
  dsimp only
  have e1 : initialCounters.skipped = 0 := rfl
  have e2 : initialCounters.failed = 0 := rfl
  have e3 : initialCounters.done = 0 := rfl
  refine ⟨?_, ?_, ?_, ?_⟩
  · rw [foldl_countOutcome_done outcomes initialCounters]
    omega
  · have h1 := foldl_countOutcome_skipped_failed outcomes initialCounters
    have h2 := foldl_countOutcome_done outcomes initialCounters
    omega
  · exact jsBytesSaved_cast _ _
  · intro ho
    have hle := foldl_countOutcome_bytes outcomes ho initialCounters
      (Nat.le_refl 0)
    rw [jsBytesSaved_cast]
    have hd : (0 : Int)
        ≤ ((outcomes.foldl countOutcome
              initialCounters).totalOriginalBytes : Int)
          - ((outcomes.foldl countOutcome
              initialCounters).totalOutputBytes : Int) := by
      omega
    rw [max_eq_right hd]

theorem C8_witness :
    ((executeRunSummary
        [.okResponse
          { action := some (skipDecision 10 "No candidate met quality threshold")
            originalBytes := 10
            webpSuccess := false },
         .failedResponse "boom"] 1).totalOriginalBytes : Int)
        - ((executeRunSummary
            [.okResponse
              { action := some (skipDecision 10 "No candidate met quality threshold")
                originalBytes := 10
                webpSuccess := false },
             .failedResponse "boom"] 1).totalOutputBytes : Int)
      = ((executeRunSummary
          [.okResponse
            { action := some (skipDecision 10 "No candidate met quality threshold")
              originalBytes := 10
              webpSuccess := false },
           .failedResponse "boom"] 1).totalSavedBytes : Int) :=
  (C8_summary_identity
      [.okResponse
        { action := some (skipDecision 10 "No candidate met quality threshold")
          originalBytes := 10
          webpSuccess := false },
       .failedResponse "boom"] 1).2.2.2 (by decide)

/-! ## Watch service: processed index and delivery lifecycle
(watch/watcher.ts) -/

/-- Models `FileFingerprint` (watch/watcher.ts): size, `mtimeMs` (modelled in
integral milliseconds; the store compares it for exact equality), and the
fast hash. -/
structure FileFingerprint where
  size : Nat
  mtime : Int
  hash : String
  deriving DecidableEq, Repr

/-- The in-memory map of `ProcessedIndexStore` (absolute path →
fingerprint), as an association list whose head entry wins. -/
abbrev ProcessedIndex := List (String × FileFingerprint)

def indexLookup (idx : ProcessedIndex) (filePath : String) :
    Option FileFingerprint :=
  match idx.find? (fun e => decide (e.1 = filePath)) with
  | some e => some e.2
  | none => none

/-- Models `hasBeenProcessed`: an entry exists for the path and its size, mtime
and hash all match. -/
def hasBeenProcessed (idx : ProcessedIndex) (filePath : String)
    (fingerprint : FileFingerprint) : Bool :=
  match indexLookup idx filePath with
  | none => false
  | some existing =>
    decide (existing.size = fingerprint.size)
      && decide (existing.mtime = fingerprint.mtime)
      && decide (existing.hash = fingerprint.hash)

/-- Models `markProcessed`: overwrite the entry for the path. -/
def markProcessed (idx : ProcessedIndex) (filePath : String)
    (fingerprint : FileFingerprint) : ProcessedIndex :=
  (filePath, fingerprint) :: idx.filter (fun e => !decide (e.1 = filePath))

/-- Models `SAMPLE_SIZE = 1 MiB` (watch/processedIndex section). -/
def SAMPLE_SIZE : Nat := 1024 * 1024

/-- Models `computeFastHash`: SHA-1 (abstracted as the oracle `hash`) over the
size rendered as a string followed by the whole content when the file is
at most `2 * SAMPLE_SIZE` bytes, else by the first and the last
`SAMPLE_SIZE` bytes. -/
def computeFastHash (hash : List Nat → String) (content : List Nat) :
    String :=
  let sizeBytes := (toString content.length).toList.map Char.toNat
  if content.length ≤ SAMPLE_SIZE * 2 then hash (sizeBytes ++ content)
  else hash (sizeBytes ++ content.take SAMPLE_SIZE
    ++ content.drop (content.length - SAMPLE_SIZE))

/-- Models `getFingerprint`: stat size and mtime plus the fast hash. -/
def getFingerprint (hash : List Nat → String) (content : List Nat)
    (mtime : Int) : FileFingerprint :=
  { size := content.length
    mtime := mtime
    hash := computeFastHash hash content }

inductive WatchEventStatus
  | success
  | skipped
  | failed
  deriving DecidableEq, Repr

/-- What one watch delivery produced: the emitted event, whether the
optimization pipeline ran, and the updated processed index. -/
structure WatchStepResult where
  emitted : WatchEventStatus
  message : Option String
  ranPipeline : Bool
  index : ProcessedIndex
  deriving DecidableEq, Repr

/-- Models `processFileWithLifecycle` followed by `runOptimization`
(watch/watcher.ts): stability gate, size cap, processed-index
de-duplication, then the pipeline; the fingerprint is recorded only when
the relevant action succeeded.  `isStable` is the stability-checker
verdict and `pipelineAction` the status of the relevant worker-response
action (`none` when the response had no relevant action); retry
scheduling after an error is outside this slice. -/
def processFileWithLifecycle (isStable : Bool) (size : Nat)
    (maxFileSizeMb : Nat) (filePath : String) (fp : FileFingerprint)
    (idx : ProcessedIndex) (pipelineAction : Option ActionStatus) :
    WatchStepResult :=
  if !isStable then
    { emitted := .failed
      message := some "File did not become stable within timeout"
      ranPipeline := false
      index := idx }
  else if decide (maxFileSizeMb > 0)
      && decide (size > maxFileSizeMb * 1024 * 1024) then
    { emitted := .skipped
      message := some "File too large"
      ranPipeline := false
      index := idx }
  else if hasBeenProcessed idx filePath fp then
    { emitted := .skipped
      message := some "Already processed"
      ranPipeline := false
      index := idx }
  else
    let status : WatchEventStatus :=
      match pipelineAction with
      | some .success => .success
      | some .failed => .failed
      | _ => .skipped
    { emitted := status
      message := none
      ranPipeline := true
      index :=
        if status = .success then markProcessed idx filePath fp else idx }

/-! ## C9 -/

lemma hasBeenProcessed_markProcessed (idx : ProcessedIndex)
    (filePath : String) (fp : FileFingerprint) :
    hasBeenProcessed (markProcessed idx filePath fp) filePath fp = true := by
  simp [hasBeenProcessed, markProcessed, indexLookup, List.find?]

/-- C9: a stable, size-admissible watch delivery for a file whose current
fingerprint matches the stored one emits `skipped` with reason
"Already processed" without running the pipeline and leaves the index
unchanged; when the fingerprint does not match, the pipeline runs and the
fingerprint is recorded exactly when the action succeeded — so a
successful run followed by an identical re-delivery is deduplicated; and
the fingerprint hashes the whole file when it is at most 2 MiB, else its
first and last MiB, alongside size and mtime. -/
theorem C9_processed_index_idempotence (isStable : Bool) (size : Nat)
    (maxFileSizeMb : Nat) (filePath : String) (fp : FileFingerprint)
    (idx : ProcessedIndex) (pipelineAction : Option ActionStatus)
    (hash : List Nat → String) (content : List Nat) (mtime : Int) :
    (isStable = true →
      (decide (maxFileSizeMb > 0)
          && decide (size > maxFileSizeMb * 1024 * 1024)) = false →
      (hasBeenProcessed idx filePath fp = true →
        processFileWithLifecycle isStable size maxFileSizeMb filePath fp idx
            pipelineAction
          = { emitted := .skipped
              message := some "Already processed"
              ranPipeline := false
              index := idx })
      ∧ (hasBeenProcessed idx filePath fp = false →
          (processFileWithLifecycle isStable size maxFileSizeMb filePath fp
              idx pipelineAction).ranPipeline = true
          ∧ (pipelineAction = some .success →
              (processFileWithLifecycle isStable size maxFileSizeMb filePath
                  fp idx pipelineAction).index
                = markProcessed idx filePath fp)
          ∧ (pipelineAction ≠ some .success →
              (processFileWithLifecycle isStable size maxFileSizeMb filePath
                  fp idx pipelineAction).index = idx)))
    ∧ hasBeenProcessed (markProcessed idx filePath fp) filePath fp = true
    ∧ getFingerprint hash content mtime
        = { size := content.length
            mtime := mtime
            hash := computeFastHash hash content }
    ∧ (content.length ≤ SAMPLE_SIZE * 2 →
        computeFastHash hash content
          = hash (((toString content.length).toList.map Char.toNat)
              ++ content))
    ∧ (¬ content.length ≤ SAMPLE_SIZE * 2 →
        computeFastHash hash content
          = hash (((toString content.length).toList.map Char.toNat)
              ++ content.take SAMPLE_SIZE
              ++ content.drop (content.length - SAMPLE_SIZE))) := by
  refine ⟨?_, hasBeenProcessed_markProcessed idx filePath fp, rfl, ?_, ?_⟩
  · intro hstable hsize
    constructor
    · intro hdup
      unfold processFileWithLifecycle
      rw [hstable]
      simp only [Bool.not_true, Bool.false_eq_true, if_false]
      rw [hsize]
      simp only [Bool.false_eq_true, if_false]
      rw [hdup]
      rfl
    · intro hnew
      unfold processFileWithLifecycle
      rw [hstable]
      simp only [Bool.not_true, Bool.false_eq_true, if_false]
      rw [hsize]
      simp only [Bool.false_eq_true, if_false]
      rw [hnew]
      simp only [Bool.false_eq_true, if_false]
      rcases pipelineAction with _ | st
      · exact ⟨by trivial, fun h => absurd h (by decide), fun _ => by trivial⟩
      · cases st with
        | success =>
          exact ⟨by trivial, fun _ => by trivial, fun h => absurd rfl h⟩
        | skipped =>
          exact ⟨by trivial, fun h => absurd h (by decide), fun _ => by trivial⟩
        | failed =>
          exact ⟨by trivial, fun h => absurd h (by decide), fun _ => by trivial⟩
  · intro hsmall
    unfold computeFastHash
    rw [if_pos hsmall]
  · intro hlarge
    unfold computeFastHash
    rw [if_neg hlarge]

theorem C9_witness :
    (processFileWithLifecycle true 100 0 "/w/a.jpg"
        { size := 100, mtime := 5, hash := "h" }
        [("/w/a.jpg", { size := 100, mtime := 5, hash := "h" })]
        (some .success)
      = { emitted := .skipped
          message := some "Already processed"
          ranPipeline := false
          index := [("/w/a.jpg", { size := 100, mtime := 5, hash := "h" })] })
    ∧ computeFastHash (fun _ => "h") [1, 2, 3]
        = (fun _ => "h") (((toString ([1, 2, 3] : List Nat).length).toList.map
            Char.toNat) ++ [1, 2, 3]) :=
  ⟨((C9_processed_index_idempotence true 100 0 "/w/a.jpg"
      { size := 100, mtime := 5, hash := "h" }
      [("/w/a.jpg", { size := 100, mtime := 5, hash := "h" })]
      (some .success) (fun _ => "h") [1, 2, 3] 5).1 rfl (by decide)).1
      (by decide),
   (C9_processed_index_idempotence true 100 0 "/w/a.jpg"
      { size := 100, mtime := 5, hash := "h" }
      [("/w/a.jpg", { size := 100, mtime := 5, hash := "h" })]
      (some .success) (fun _ => "h") [1, 2, 3] 5).2.2.2.1 (by decide)⟩

/-! ## Backup bookkeeping (optimizer/io/paths.ts, `ensureBackup`) -/

/-- Models `BackupRecord` (optimizer/io/paths.ts). -/
structure BackupRecord where
  originalPath : String
  backupPath : String
  removeOnRestore : Option String := none
  deriving DecidableEq, Repr

/-- The backup state one file job threads through its actions: the
`backupCache` map (original path → backup path), the accumulated
`backupRecords`, and the number of `fs.copyFile` calls performed. -/
structure BackupState where
  cache : List (String × String)
  records : List BackupRecord
  copies : Nat
  deriving DecidableEq, Repr

/-- Models `cache.get(originalPath)` on the association list. -/
def cacheLookup (cache : List (String × String)) (originalPath : String) :
    Option String :=
  match cache.find? (fun e => decide (e.1 = originalPath)) with
  | some e => some e.2
  | none => none

/-- Models `path.basename`: the final path component. -/
def baseName (p : String) : String :=
  String.mk (p.toList.foldl
    (fun acc c => if c = '/' then [] else acc ++ [c]) [])

/-- Models `createBackupFilePath`: `<backupDir>/<safeName>-<basename>` where
`safeName` replaces path separators and colons with underscores. -/
def createBackupFilePath (backupDir originalPath : String) : String :=
  backupDir ++ "/"
    ++ String.map (fun c => if c = '/' ∨ c = ':' then '_' else c) originalPath
    ++ "-" ++ baseName originalPath

/-- Models `ensureBackup` (optimizer/io/paths.ts): a cached path is returned
as-is; otherwise the original is copied into the backup directory, the
cache learns the mapping, and exactly one record is appended. -/
def ensureBackup (backupDir originalPath : String) (st : BackupState) :
    String × BackupState :=
  match cacheLookup st.cache originalPath with
  | some existing => (existing, st)
  | none =>
    let backupPath := createBackupFilePath backupDir originalPath
    (backupPath,
      { cache := (originalPath, backupPath) :: st.cache
        records := st.records
          ++ [{ originalPath := originalPath, backupPath := backupPath }]
        copies := st.copies + 1 })

/-- The number of backup records for an original path. -/
def recordCount (records : List BackupRecord) (p : String) : Nat :=
  (records.filter (fun r => decide (r.originalPath = p))).length

/-- The coherence invariant of the backup state: at most one record per
original path, and no record for a path the cache does not know. -/
def BackupInv (st : BackupState) : Prop :=
  ∀ p, recordCount st.records p ≤ 1
    ∧ (cacheLookup st.cache p = none → recordCount st.records p = 0)

/-! ## C10 -/

lemma cacheLookup_cons_self (cache : List (String × String))
    (p b : String) : cacheLookup ((p, b) :: cache) p = some b := by
  simp [cacheLookup, List.find?]

lemma cacheLookup_cons_other (cache : List (String × String))
    (p b q : String) (hne : p ≠ q) :
    cacheLookup ((p, b) :: cache) q = cacheLookup cache q := by
  simp only [cacheLookup, List.find?]
  rw [show (decide ((p, b).1 = q)) = false by simp [hne]]

lemma recordCount_append_one (records : List BackupRecord)
    (rec : BackupRecord) (q : String) :
    recordCount (records ++ [rec]) q
      = recordCount records q
        + (if rec.originalPath = q then 1 else 0) := by
  simp only [recordCount, List.filter_append]
  rw [List.length_append]
  congr 1
  by_cases h : rec.originalPath = q
  · simp [h]
  · simp [h]

/-- C10: within one file job `ensureBackup` is idempotent per original
path: an uncached path is copied once, cached, and appends exactly one
record; a cached path is returned without copying or appending; calling
it twice equals calling it once; and from a coherent state every
sequence of calls keeps at most one backup record per original path (so
the optimize and the WebP action backing up the same input yield one
record). -/
theorem C10_ensureBackup_idempotent (backupDir originalPath : String)
    (st : BackupState) :
    (∀ b, cacheLookup st.cache originalPath = some b →
      ensureBackup backupDir originalPath st = (b, st))
    ∧ (cacheLookup st.cache originalPath = none →
        (ensureBackup backupDir originalPath st).2.records
            = st.records
              ++ [{ originalPath := originalPath
                    backupPath := createBackupFilePath backupDir originalPath }]
          ∧ (ensureBackup backupDir originalPath st).2.copies = st.copies + 1
          ∧ cacheLookup (ensureBackup backupDir originalPath st).2.cache
              originalPath
            = some (createBackupFilePath backupDir originalPath))
    ∧ ensureBackup backupDir originalPath
          (ensureBackup backupDir originalPath st).2
        = ((ensureBackup backupDir originalPath st).1,
           (ensureBackup backupDir originalPath st).2)
    ∧ (BackupInv st → BackupInv (ensureBackup backupDir originalPath st).2) := by
  refine ⟨?_, ?_, ?_, ?_⟩
  · intro b hb
    unfold ensureBackup
    rw [hb]
  · intro hnone
    unfold ensureBackup
    rw [hnone]
    exact ⟨rfl, rfl, cacheLookup_cons_self _ _ _⟩
  · rcases hc : cacheLookup st.cache originalPath with _ | b
    · have h1 : ensureBackup backupDir originalPath st
          = (createBackupFilePath backupDir originalPath,
             { cache := (originalPath,
                  createBackupFilePath backupDir originalPath) :: st.cache
               records := st.records
                 ++ [{ originalPath := originalPath
                       backupPath :=
                        createBackupFilePath backupDir originalPath }]
               copies := st.copies + 1 }) := by
        unfold ensureBackup
        rw [hc]
      rw [h1]
      unfold ensureBackup
      rw [cacheLookup_cons_self]
    · have h1 : ensureBackup backupDir originalPath st = (b, st) := by
        unfold ensureBackup
        rw [hc]
      rw [h1, h1]
  · intro hinv
    rcases hc : cacheLookup st.cache originalPath with _ | b
    · have h1 : (ensureBackup backupDir originalPath st).2
          = { cache := (originalPath,
                createBackupFilePath backupDir originalPath) :: st.cache
              records := st.records
                ++ [{ originalPath := originalPath
                      backupPath :=
                        createBackupFilePath backupDir originalPath }]
              copies := st.copies + 1 } := by
        unfold ensureBackup
        rw [hc]
      rw [h1]
      intro q
      have hbase := hinv q
      dsimp only [BackupInv]
      by_cases hq : originalPath = q
      · subst hq
        have hzero : recordCount st.records originalPath = 0 :=
          (hinv originalPath).2 hc
        constructor
        · rw [recordCount_append_one]
          simp [hzero]
        · intro hl
          rw [cacheLookup_cons_self] at hl
          exact absurd hl (by simp)
      · constructor
        · rw [recordCount_append_one]
          have : ({ originalPath := originalPath
                    backupPath :=
                      createBackupFilePath backupDir originalPath,
                    removeOnRestore := none } : BackupRecord).originalPath
              = originalPath := rfl
          rw [this, if_neg hq]
          simpa using hbase.1
        · intro hl
          rw [cacheLookup_cons_other _ _ _ _ hq] at hl
          rw [recordCount_append_one]
          have : ({ originalPath := originalPath
                    backupPath :=
                      createBackupFilePath backupDir originalPath,
                    removeOnRestore := none } : BackupRecord).originalPath
              = originalPath := rfl
          rw [this, if_neg hq]
          simpa using hbase.2 hl
    · have h1 : (ensureBackup backupDir originalPath st).2 = st := by
        unfold ensureBackup
        rw [hc]
      rw [h1]
      exact hinv

/-- A sample backup state with an empty cache. -/
def emptyBackupState : BackupState :=
  { cache := [], records := [], copies := 0 }

theorem C10_witness :
    ((ensureBackup "/root/Originals Backup/run1" "/root/a.jpg"
        emptyBackupState).2.records
      = [{ originalPath := "/root/a.jpg"
           backupPath := createBackupFilePath "/root/Originals Backup/run1"
              "/root/a.jpg" }]
      ∧ (ensureBackup "/root/Originals Backup/run1" "/root/a.jpg"
          emptyBackupState).2.copies = 1
      ∧ cacheLookup (ensureBackup "/root/Originals Backup/run1" "/root/a.jpg"
            emptyBackupState).2.cache "/root/a.jpg"
          = some (createBackupFilePath "/root/Originals Backup/run1"
              "/root/a.jpg"))
    ∧ ensureBackup "/root/Originals Backup/run1" "/root/a.jpg"
          (ensureBackup "/root/Originals Backup/run1" "/root/a.jpg"
            emptyBackupState).2
        = ((ensureBackup "/root/Originals Backup/run1" "/root/a.jpg"
              emptyBackupState).1,
           (ensureBackup "/root/Originals Backup/run1" "/root/a.jpg"
              emptyBackupState).2) :=
  ⟨by
    have h := (C10_ensureBackup_idempotent "/root/Originals Backup/run1"
      "/root/a.jpg" emptyBackupState).2.1 (by decide)
    simpa using h,
   (C10_ensureBackup_idempotent "/root/Originals Backup/run1"
      "/root/a.jpg" emptyBackupState).2.2.1⟩

end ImgOpt
